import Mathlib

/-!
Shallow embedding of `src/Whidbey/script.js`, the tide data fetch-and-render
pipeline for NOAA CO-OPS station 9447856.  The source file holds two revisions
of the script; where they differ (the initialisation of the `hourly` variable
in `loadData`: `null` in the first revision, `[]` in the second) both are
embedded, as `loadData_v1` and `loadData_v2`.  Shared code (buildUrl,
fetchJSON, fmtDate, last7Next7, renderChart, renderTable) is identical in the
two revisions and embedded once.

Modelling conventions:
* JS strings are Lean `String`; string-encoded heights (`p.v`, consumed only
  through `Number(p.v)`) are modelled by their numeric value as a rational,
  so `Number` is the identity on this view and `toFixed(2)` is decimal
  rounding to two fraction digits.
* A JS `Date` is viewed two ways, matching the two ways the code consumes it:
  as a year/month/day triple (`DateYMD`, month 1-based, i.e. `getMonth()+1`)
  for `fmtDate`, and as a count of milliseconds on the local civil time scale
  for the window arithmetic of `last7Next7` (`setDate(getDate() ± 7)` shifts
  by exactly 7 civil days; daylight-saving wall-clock shifts are outside the
  embedding).  `new Date(s.replace(' ','T'))` is modelled by the ISO string it
  is built from; the locale presentation of dates in table cells is not
  modelled further (no claim depends on it).
* `await fetchJSON(url)` either resolves to the parsed JSON object or throws;
  an outcome is `Except String ApiData` (`.error` covers both a network
  rejection of `fetch` itself and `fetchJSON`'s own `throw`).
* DOM side effects of `loadData` (setHiloNote / renderChart / renderTable)
  are recorded as an ordered trace of `RenderCall`s next to the returned
  value, so "mapper was (not) invoked" is a statement about the trace.
-/

/-- One decoded element of the `predictions` array:
`\x7bt: "YYYY-MM-DD HH:MM", v: string-encoded number, type?: "H"|"L"\x7d`.
`v` is carried as its numeric value (see module comment). -/
structure PredRow where
  t : String
  v : ℚ
  type : Option String
deriving DecidableEq, Repr

/-- The `error` object of a response payload; `message` is `none` when the
field is absent and `some ""` when present but empty (both are falsy in JS). -/
structure ApiError where
  message : Option String
deriving DecidableEq, Repr

/-- The parsed JSON body consumed by the script: an optional `error` object
and an optional `predictions` array. -/
structure ApiData where
  error : Option ApiError
  predictions : Option (List PredRow)
deriving DecidableEq, Repr

/-- A settled transport response: `ok`/`status` from the fetch Response, plus
its parsed JSON body. -/
structure HttpResponse where
  ok : Bool
  status : Nat
  body : ApiData
deriving DecidableEq, Repr

/-- `const STATION_ID = "9447856"`. -/
def STATION_ID : String := "9447856"

/-- `const API_BASE = "https://api.tidesandcurrents.noaa.gov/api/prod/datagetter"`. -/
def API_BASE : String := "https://api.tidesandcurrents.noaa.gov/api/prod/datagetter"

/-- `localTZ()` returns the fixed time-zone parameter. -/
def localTZ : String := "lst_ldt"

/-- `String(x).padStart(2, '0')`: pad on the left with zeros to length 2
(strings already of length 2 or more are unchanged). -/
def padStart2 (s : String) : String :=
  if s.length ≥ 2 then s else if s.length = 1 then "0" ++ s else "00"

/-- The calendar view of a JS `Date`: year, 1-based month (`getMonth()+1`),
day of month (`getDate()`). -/
structure DateYMD where
  year : Nat
  month : Nat
  day : Nat
deriving DecidableEq, Repr

/-- `fmtDate(date)`: compact `yyyyMMdd` from `getFullYear`, `getMonth()+1`
and `getDate`, the month and day zero-padded to two digits. -/
def fmtDate (d : DateYMD) : String :=
  toString d.year ++ padStart2 (toString d.month) ++ padStart2 (toString d.day)

/-- The ordered key/value pairs put into `URLSearchParams` by `buildUrl`;
`params.set('interval', interval)` appends at the end since the key is not
among the initial nine, and runs only when `interval` is truthy (a present,
non-empty string). -/
def buildUrlParams (begin_ end_ : DateYMD) (product : String)
    (interval : Option String) (datum units : String) : List (String × String) :=
  [("product", product),
   ("application", "Jeremy.Whidbey.Tides"),
   ("begin_date", fmtDate begin_),
   ("end_date", fmtDate end_),
   ("datum", datum),
   ("station", STATION_ID),
   ("time_zone", localTZ),
   ("units", units),
   ("format", "json")] ++
  (match interval with
   | some i => if i = "" then [] else [("interval", i)]
   | none => [])

/-- `buildUrl(...)`: base URL, `?`, and the serialized parameters.  The
values occurring in the program (letters, digits, `.`, `_`, `/`) are fixed by
percent-encoding, so serialization is plain `k=v` joined with `&`. -/
def buildUrl (begin_ end_ : DateYMD) (product : String)
    (interval : Option String) (datum units : String) : String :=
  API_BASE ++ "?" ++
    String.intercalate "&"
      ((buildUrlParams begin_ end_ product interval datum units).map
        (fun kv => kv.1 ++ "=" ++ kv.2))

/-- The message of a thrown application error:
`data.error.message || 'API error'` (an absent or empty message is falsy). -/
def apiErrorMessage (e : ApiError) : String :=
  match e.message with
  | some m => if m = "" then "API error" else m
  | none => "API error"

/-- `fetchJSON(url)` after the transport settled: throw `HTTP <status>` on a
non-ok response, throw the payload message when the body carries an `error`
object, otherwise return the body. -/
def fetchJSON (resp : HttpResponse) : Except String ApiData :=
  if resp.ok = false then
    .error ("HTTP " ++ toString resp.status)
  else
    match resp.body.error with
    | some e => .error (apiErrorMessage e)
    | none => .ok resp.body

/-- Milliseconds per civil day. -/
def msPerDay : ℤ := 86400000

/-- The window returned by `last7Next7`, both bounds as civil-scale
millisecond timestamps. -/
structure TimeWindow where
  wbegin : ℤ
  wend : ℤ
deriving DecidableEq, Repr

/-- `last7Next7()`: copies of `now` shifted by `setDate(getDate() - 7)` and
`setDate(getDate() + 7)`, i.e. seven civil days before and after `now`. -/
def last7Next7 (now : ℤ) : TimeWindow :=
  { wbegin := now - 7 * msPerDay, wend := now + 7 * msPerDay }

/-- `toLocalDate(s)` / `toLocalISO(s)`: `new Date(s.replace(' ', 'T'))`,
the constructed `Date` represented by the ISO string it parses. -/
def toLocalDate (s : String) : String :=
  s.replace " " "T"

/-- The inline ternary repeated in `renderChart` and `renderTable`:
`units === 'metric' ? 'm' : 'ft'`. -/
def unitLabel (units : String) : String :=
  if units = "metric" then "m" else "ft"

/-- `x.toFixed(2)` on the rational view of a JS number: round to the nearest
hundredth (ties away from zero on the values the program meets) and print
with exactly two fraction digits. -/
def toFixed2 (q : ℚ) : String :=
  (if round (q * 100) < 0 then "-" else "") ++
  toString ((round (q * 100)).natAbs / 100) ++ "." ++
  padStart2 (toString ((round (q * 100)).natAbs % 100))

/-- One point of the scatter dataset:
`hilo.map(p => (\x7b x: toLocalDate(p.t), y: Number(p.v), type: p.type \x7d))`. -/
structure ChartPoint where
  x : String
  y : ℚ
  type : Option String
deriving DecidableEq, Repr

/-- Builds one scatter point from a prediction row. -/
def mkHiloPoint (p : PredRow) : ChartPoint :=
  { x := toLocalDate p.t, y := p.v, type := p.type }

/-- The per-point `backgroundColor` callback of the scatter dataset:
`ctx.raw.type === 'H' ? 'rgba(25,150,25,0.9)' : 'rgba(200,60,60,0.9)'`. -/
def markerColor (p : ChartPoint) : String :=
  if p.type = some "H" then "rgba(25,150,25,0.9)" else "rgba(200,60,60,0.9)"

/-- The tooltip label callback of `renderChart`:
`ctx.parsed.y.toFixed(2)` followed by the unit label. -/
def tooltipLabel (y : ℚ) (units : String) : String :=
  toFixed2 y ++ " " ++ unitLabel units

/-- The chart content assembled by `renderChart`: the labels, label string
and data of the primary line dataset, and the points of the scatter
dataset. -/
structure ChartData where
  labels : List String
  primaryLabel : String
  series : List ℚ
  hiloPoints : List ChartPoint
deriving DecidableEq, Repr

/-- The pure content of `renderChart(hourly, hilo, units)` for an `hourly`
argument that is an array: labels and series come from `hourly` when it is
non-empty, else from `hilo`; the scatter points always come from `hilo`. -/
def renderChart (hourly hilo : List PredRow) (units : String) : ChartData :=
  let src := if hourly.isEmpty then hilo else hourly
  { labels := src.map (fun p => toLocalDate p.t),
    primaryLabel :=
      if hourly.isEmpty then "High/Low points (" ++ unitLabel units ++ ")"
      else "Hourly predictions (" ++ unitLabel units ++ ")",
    series := src.map (fun p => p.v),
    hiloPoints := hilo.map mkHiloPoint }

/-- `renderChart` as invoked by `loadData`, where the `hourly` argument is a
JS value that may be `null` (`none`): on `null` the very first access
`hourly.length` throws a TypeError, otherwise the chart content is built. -/
def renderChartJs (hourly : Option (List PredRow)) (hilo : List PredRow)
    (units : String) : Except String ChartData :=
  match hourly with
  | none => .error "TypeError: hourly is null"
  | some h => .ok (renderChart h hilo units)

/-- One row of the tide table built by `renderTable`: the parsed `Date`
(locale presentation of its date/time cells abstracted to the ISO string),
the type cell `row.type === 'H' ? 'High' : 'Low'`, and the height cell
`Number(row.v).toFixed(2)` followed by the unit label. -/
structure TableRow where
  dt : String
  typeStr : String
  heightStr : String
deriving DecidableEq, Repr

/-- Builds one table row from a prediction row. -/
def renderTableRow (row : PredRow) (units : String) : TableRow :=
  { dt := toLocalDate row.t,
    typeStr := if row.type = some "H" then "High" else "Low",
    heightStr := toFixed2 row.v ++ " " ++ unitLabel units }

/-- `renderTable(hilo, units)`: one table row per element of `hilo`, in the
order received. -/
def renderTable (hilo : List PredRow) (units : String) : List TableRow :=
  hilo.map (fun row => renderTableRow row units)

/-- One DOM-touching call performed by `loadData`, in order: the coverage
note (`setHiloNote`), the chart mapper (`renderChart`, with the JS value it
receives as its `hourly` argument), the table mapper (`renderTable`). -/
inductive RenderCall where
  | note (supportsHourly : Bool)
  | chart (hourly : Option (List PredRow)) (hilo : List PredRow) (units : String)
  | table (hilo : List PredRow) (units : String)
deriving DecidableEq, Repr

/-- The value a successful `loadData` leaves rendered: the coverage flag
passed to `setHiloNote`, the chart content and the table rows. -/
structure LoadResult where
  supportsHourly : Bool
  chart : ChartData
  table : List TableRow
deriving DecidableEq, Repr

/-- The tail of `loadData` shared by both revisions, after the hourly
try/catch fixed the pair (hourly value, supportsHourly): await the mandatory
hilo fetch (its rejection rejects `loadData` with nothing rendered), then
run `setHiloNote`, `renderChart`, `renderTable` in order.  Returns the
outcome together with the trace of rendering calls performed. -/
def loadDataAfterHourly (hourly : Option (List PredRow)) (supportsHourly : Bool)
    (hiloOut : Except String ApiData) (units : String) :
    Except String LoadResult × List RenderCall :=
  match hiloOut with
  | .error e => (.error e, [])
  | .ok hiloRes =>
    let hilo := hiloRes.predictions.getD []
    match renderChartJs hourly hilo units with
    | .error e =>
      (.error e, [.note supportsHourly, .chart hourly hilo units])
    | .ok c =>
      (.ok { supportsHourly := supportsHourly, chart := c,
             table := renderTable hilo units },
       [.note supportsHourly, .chart hourly hilo units, .table hilo units])

/-- The hourly try/catch of the FIRST revision: `let hourly = null`; on a
resolved fetch, `hourly = res.predictions || []` and `supportsHourly`
(initially `true`) drops to `false` when the array is empty; on a thrown
fetch, `supportsHourly = false` and `hourly` is left `null`. -/
def hourlyState_v1 (hOut : Except String ApiData) : Option (List PredRow) × Bool :=
  match hOut with
  | .ok res =>
    let hourly := res.predictions.getD []
    (some hourly, !hourly.isEmpty)
  | .error _ => (none, false)

/-- The hourly try/catch of the SECOND revision: `let hourly = []`; identical
to the first except that a thrown fetch leaves `hourly` as the empty
array. -/
def hourlyState_v2 (hOut : Except String ApiData) : Option (List PredRow) × Bool :=
  match hOut with
  | .ok res =>
    let hourly := res.predictions.getD []
    (some hourly, !hourly.isEmpty)
  | .error _ => (some [], false)

/-- `loadData` of the first revision, as a function of the two fetch
outcomes and the units selection. -/
def loadData_v1 (hOut hiloOut : Except String ApiData) (units : String) :
    Except String LoadResult × List RenderCall :=
  loadDataAfterHourly (hourlyState_v1 hOut).1 (hourlyState_v1 hOut).2 hiloOut units

/-- `loadData` of the second revision, as a function of the two fetch
outcomes and the units selection. -/
def loadData_v2 (hOut hiloOut : Except String ApiData) (units : String) :
    Except String LoadResult × List RenderCall :=
  loadDataAfterHourly (hourlyState_v2 hOut).1 (hourlyState_v2 hOut).2 hiloOut units

/-- The chart-slot action sequence of `renderChart`:
`if (chart) chart.destroy(); chart = new Chart(...)`. -/
inductive ChartAction where
  | destroy (id : Nat)
  | create (id : Nat)
deriving DecidableEq, Repr

/-- The effect of the end of `renderChart` on the module-level `chart` slot:
destroy the existing instance when present, then create the new one and
store it.  Returns the new slot value and the actions in program order. -/
def chartSlotStep (slot : Option Nat) (newId : Nat) :
    Option Nat × List ChartAction :=
  (some newId,
   (match slot with
    | some old => [ChartAction.destroy old]
    | none => []) ++ [ChartAction.create newId])

/-- The set of live chart instances after one action: `destroy` releases an
instance, `create` brings one up. -/
def applyChartAction (live : List Nat) : ChartAction → List Nat
  | .destroy i => live.erase i
  | .create i => live ++ [i]

/-- Runs a sequence of chart actions on an initial set of live instances. -/
def runChartActions (live : List Nat) (acts : List ChartAction) : List Nat :=
  acts.foldl applyChartAction live

set_option maxRecDepth 8192 in
/-- C6: for every datum and units selection, `buildUrl` emits exactly the
parameters product, application, begin_date, end_date, datum, station,
time_zone, units and format, with `interval` appended exactly when an
interval mode (`'60'` or `'hilo'`) is given and absent when none is; the
window 2024-06-01 .. 2024-06-15 is formatted as `begin_date=20240601`,
`end_date=20240615`. -/
theorem C6_buildUrl_params (b e : DateYMD) (datum units : String) :
    ((buildUrlParams b e "predictions" none datum units).map Prod.fst =
      ["product", "application", "begin_date", "end_date", "datum",
       "station", "time_zone", "units", "format"]) ∧
    ((buildUrlParams b e "predictions" (some "60") datum units).map Prod.fst =
      ["product", "application", "begin_date", "end_date", "datum",
       "station", "time_zone", "units", "format", "interval"]) ∧
    ((buildUrlParams b e "predictions" (some "hilo") datum units).map Prod.fst =
      ["product", "application", "begin_date", "end_date", "datum",
       "station", "time_zone", "units", "format", "interval"]) ∧
    fmtDate ⟨2024, 6, 1⟩ = "20240601" ∧
    fmtDate ⟨2024, 6, 15⟩ = "20240615" ∧
    (buildUrlParams ⟨2024, 6, 1⟩ ⟨2024, 6, 15⟩ "predictions" (some "hilo") datum units =
      [("product", "predictions"),
       ("application", "Jeremy.Whidbey.Tides"),
       ("begin_date", "20240601"),
       ("end_date", "20240615"),
       ("datum", datum),
       ("station", "9447856"),
       ("time_zone", "lst_ldt"),
       ("units", units),
       ("format", "json"),
       ("interval", "hilo")]) ∧
    (buildUrl ⟨2024, 6, 1⟩ ⟨2024, 6, 15⟩ "predictions" (some "hilo")
        "MLLW" "english" =
      "https://api.tidesandcurrents.noaa.gov/api/prod/datagetter?product=predictions&application=Jeremy.Whidbey.Tides&begin_date=20240601&end_date=20240615&datum=MLLW&station=9447856&time_zone=lst_ldt&units=english&format=json&interval=hilo") := by
  have h1 : fmtDate ⟨2024, 6, 1⟩ = "20240601" := by decide
  have h2 : fmtDate ⟨2024, 6, 15⟩ = "20240615" := by decide
  refine ⟨?_, ?_, ?_, h1, h2, ?_, by decide⟩ <;>
    simp [buildUrlParams, h1, h2, STATION_ID, localTZ]

/-- C7: the window computed at load time spans exactly 14 days, the current
moment strictly between its bounds (7 days on each side). -/
theorem C7_window (now : ℤ) :
    (last7Next7 now).wend - (last7Next7 now).wbegin = 14 * msPerDay ∧
    (last7Next7 now).wbegin < now ∧ now < (last7Next7 now).wend := by
  simp only [last7Next7, msPerDay]
  omega

/-- C5: `fetchJSON` fails exactly when the transport status is non-success
or the body carries an error payload; a non-success status fails with
`HTTP <status>`, an error payload (on a success status) fails with the
payload's message when present and non-empty; the scenario payload
`error.message = "No data was found."` fails with exactly that message, and
handing that outcome to `loadData` as the mandatory fetch outcome fails the
whole load with the same message and renders nothing. -/
theorem C5_fetchJSON_spec (resp : HttpResponse) (hOut : Except String ApiData)
    (u : String) :
    ((∃ e, fetchJSON resp = Except.error e) ↔
      (resp.ok = false ∨ resp.body.error ≠ none)) ∧
    (resp.ok = false →
      fetchJSON resp = Except.error ("HTTP " ++ toString resp.status)) ∧
    (∀ m, m ≠ "" → resp.ok = true → resp.body.error = some ⟨some m⟩ →
      fetchJSON resp = Except.error m) ∧
    (fetchJSON ⟨true, 200, ⟨some ⟨some "No data was found."⟩, none⟩⟩ =
      Except.error "No data was found.") ∧
    (loadData_v1 hOut
        (fetchJSON ⟨true, 200, ⟨some ⟨some "No data was found."⟩, none⟩⟩) u =
      (Except.error "No data was found.", [])) ∧
    (loadData_v2 hOut
        (fetchJSON ⟨true, 200, ⟨some ⟨some "No data was found."⟩, none⟩⟩) u =
      (Except.error "No data was found.", [])) := by
  obtain ⟨ok, status, err, preds⟩ := resp
  refine ⟨?_, ?_, ?_, rfl, ?_, ?_⟩
  · cases ok <;> cases err <;> simp [fetchJSON, apiErrorMessage]
  · intro h
    subst h
    simp [fetchJSON]
  · intro m hm hok herr
    subst hok
    simp_all [fetchJSON, apiErrorMessage]
  · simp [loadData_v1, loadDataAfterHourly, fetchJSON, apiErrorMessage]
  · simp [loadData_v2, loadDataAfterHourly, fetchJSON, apiErrorMessage]

/-- Witness for C5 at concrete inputs: a 404 transport failure fails with
`HTTP 404`, and the scenario error payload fails with its exact message. -/
theorem C5_fetchJSON_spec_witness :
    fetchJSON ⟨false, 404, ⟨none, none⟩⟩ = Except.error "HTTP 404" ∧
    fetchJSON ⟨true, 200, ⟨some ⟨some "No data was found."⟩, none⟩⟩ =
      Except.error "No data was found." :=
  ⟨(C5_fetchJSON_spec ⟨false, 404, ⟨none, none⟩⟩ (Except.ok ⟨none, none⟩)
      "english").2.1 rfl,
   (C5_fetchJSON_spec ⟨true, 200, ⟨some ⟨some "No data was found."⟩, none⟩⟩
      (Except.ok ⟨none, none⟩) "english").2.2.1 "No data was found."
      (by decide) rfl rfl⟩

/-- C1: when the mandatory extrema fetch fails, `loadData` (both revisions)
fails with that error and performs no rendering call at all: no coverage
note, no chart mapper, no table mapper. -/
theorem C1_mandatory_failure (hOut : Except String ApiData) (e u : String) :
    loadData_v1 hOut (Except.error e) u = (Except.error e, []) ∧
    loadData_v2 hOut (Except.error e) u = (Except.error e, []) := by
  constructor <;> simp [loadData_v1, loadData_v2, loadDataAfterHourly]

/-- C2: every degenerate outcome of the optional hourly fetch — a thrown
failure or a success with an empty array — is treated as hourly-unsupported
by both revisions: `supportsHourly` is `false`, the caught error value never
influences the outcome, the mandatory extrema fetch is still consulted (its
failure alone decides the result), and the load continues to rendering: the
second revision renders chart and table in full, the first also proceeds to
the coverage note and the chart mapper. -/
theorem C2_optional_recovery (e : String) (res hiloRes : ApiData)
    (hiloOut : Except String ApiData) (u : String) :
    (hourlyState_v1 (Except.error e)).2 = false ∧
    (hourlyState_v2 (Except.error e)).2 = false ∧
    (res.predictions.getD [] = [] →
      (hourlyState_v1 (Except.ok res)).2 = false ∧
      (hourlyState_v2 (Except.ok res)).2 = false) ∧
    (∀ e2,
      loadData_v1 (Except.error e) hiloOut u =
        loadData_v1 (Except.error e2) hiloOut u ∧
      loadData_v2 (Except.error e) hiloOut u =
        loadData_v2 (Except.error e2) hiloOut u) ∧
    (∀ e3,
      loadData_v1 (Except.error e) (Except.error e3) u = (Except.error e3, []) ∧
      loadData_v2 (Except.error e) (Except.error e3) u = (Except.error e3, [])) ∧
    (loadData_v2 (Except.error e) (Except.ok hiloRes) u =
      (Except.ok { supportsHourly := false,
                   chart := renderChart [] (hiloRes.predictions.getD []) u,
                   table := renderTable (hiloRes.predictions.getD []) u },
       [RenderCall.note false,
        RenderCall.chart (some []) (hiloRes.predictions.getD []) u,
        RenderCall.table (hiloRes.predictions.getD []) u])) ∧
    ((loadData_v1 (Except.error e) (Except.ok hiloRes) u).2.head? =
      some (RenderCall.note false) ∧
      RenderCall.chart none (hiloRes.predictions.getD []) u ∈
        (loadData_v1 (Except.error e) (Except.ok hiloRes) u).2) ∧
    (res.predictions.getD [] = [] →
      loadData_v1 (Except.ok res) (Except.ok hiloRes) u =
        (Except.ok { supportsHourly := false,
                     chart := renderChart [] (hiloRes.predictions.getD []) u,
                     table := renderTable (hiloRes.predictions.getD []) u },
         [RenderCall.note false,
          RenderCall.chart (some []) (hiloRes.predictions.getD []) u,
          RenderCall.table (hiloRes.predictions.getD []) u]) ∧
      loadData_v2 (Except.ok res) (Except.ok hiloRes) u =
        (Except.ok { supportsHourly := false,
                     chart := renderChart [] (hiloRes.predictions.getD []) u,
                     table := renderTable (hiloRes.predictions.getD []) u },
         [RenderCall.note false,
          RenderCall.chart (some []) (hiloRes.predictions.getD []) u,
          RenderCall.table (hiloRes.predictions.getD []) u])) := by
  refine ⟨rfl, rfl, ?_, ?_, ?_, ?_, ?_, ?_⟩
  · intro h
    simp [hourlyState_v1, hourlyState_v2, h]
  · intro e2
    constructor <;> rfl
  · intro e3
    constructor <;> rfl
  · simp [loadData_v2, hourlyState_v2, loadDataAfterHourly, renderChartJs]
  · simp [loadData_v1, hourlyState_v1, loadDataAfterHourly, renderChartJs]
  · intro h
    constructor <;>
      simp [loadData_v1, loadData_v2, hourlyState_v1, hourlyState_v2, h,
        loadDataAfterHourly, renderChartJs]

/-- Witness for C2: an hourly success with an empty array yields
`supportsHourly = false`, and a thrown hourly fetch still renders chart and
table from the extrema data in the second revision. -/
theorem C2_optional_recovery_witness :
    (hourlyState_v1 (Except.ok ⟨none, some []⟩)).2 = false ∧
    loadData_v2 (Except.error "boom")
        (Except.ok ⟨none, some [⟨"2024-06-01 05:00", 3, some "H"⟩]⟩) "english" =
      (Except.ok { supportsHourly := false,
                   chart := renderChart [] [⟨"2024-06-01 05:00", 3, some "H"⟩] "english",
                   table := renderTable [⟨"2024-06-01 05:00", 3, some "H"⟩] "english" },
       [RenderCall.note false,
        RenderCall.chart (some []) [⟨"2024-06-01 05:00", 3, some "H"⟩] "english",
        RenderCall.table [⟨"2024-06-01 05:00", 3, some "H"⟩] "english"]) :=
  ⟨((C2_optional_recovery "boom" ⟨none, some []⟩
      ⟨none, some [⟨"2024-06-01 05:00", 3, some "H"⟩]⟩
      (Except.ok ⟨none, some [⟨"2024-06-01 05:00", 3, some "H"⟩]⟩)
      "english").2.2.1 rfl).1,
   (C2_optional_recovery "boom" ⟨none, some []⟩
      ⟨none, some [⟨"2024-06-01 05:00", 3, some "H"⟩]⟩
      (Except.ok ⟨none, some [⟨"2024-06-01 05:00", 3, some "H"⟩]⟩)
      "english").2.2.2.2.2.1⟩

/-- C3: in the FIRST revision (`let hourly = null`), a thrown hourly fetch
followed by a successful extrema fetch passes `null` — not an array — as the
hourly argument to the chart mapper, whose access `hourly.length` faults, so
the load rejects with a TypeError; the SECOND revision (`let hourly = []`)
passes the empty array on the same input and renders successfully. -/
theorem C3_null_hourly_fault :
    loadData_v1 (Except.error "HTTP 500")
        (Except.ok ⟨none, some [⟨"2024-06-01 05:00", 3, some "H"⟩]⟩) "english" =
      (Except.error "TypeError: hourly is null",
       [RenderCall.note false,
        RenderCall.chart none [⟨"2024-06-01 05:00", 3, some "H"⟩] "english"]) ∧
    (loadData_v2 (Except.error "HTTP 500")
        (Except.ok ⟨none, some [⟨"2024-06-01 05:00", 3, some "H"⟩]⟩) "english").1 =
      Except.ok { supportsHourly := false,
                  chart := renderChart [] [⟨"2024-06-01 05:00", 3, some "H"⟩] "english",
                  table := renderTable [⟨"2024-06-01 05:00", 3, some "H"⟩] "english" } := by
  constructor <;> rfl

/-- C4: the markers series is always built from the extrema sequence; when
the hourly fetch yields N>0 points and the extrema fetch M>0 points the
primary series has exactly N points, the markers M points and
`supportsHourly` is true; when the hourly array is empty `supportsHourly` is
false and the primary series carries exactly the markers' coordinates (the
extrema points reused as the visual trace).  Both revisions agree on every
resolved hourly outcome. -/
theorem C4_series_counts (hres mres : ApiData) (hl ml : List PredRow) (u : String)
    (hh : hres.predictions = some hl) (hm : mres.predictions = some ml) :
    (∀ h2 : List PredRow, (renderChart h2 ml u).hiloPoints = ml.map mkHiloPoint) ∧
    (∀ mOut, loadData_v1 (Except.ok hres) mOut u =
      loadData_v2 (Except.ok hres) mOut u) ∧
    (hl ≠ [] → ml ≠ [] →
      ∃ r, (loadData_v2 (Except.ok hres) (Except.ok mres) u).1 = Except.ok r ∧
        r.supportsHourly = true ∧
        r.chart.series.length = hl.length ∧
        r.chart.labels.length = hl.length ∧
        r.chart.hiloPoints.length = ml.length) ∧
    (hl = [] →
      ∃ r, (loadData_v2 (Except.ok hres) (Except.ok mres) u).1 = Except.ok r ∧
        r.supportsHourly = false ∧
        r.chart.series = r.chart.hiloPoints.map ChartPoint.y ∧
        r.chart.labels = r.chart.hiloPoints.map ChartPoint.x ∧
        r.chart.hiloPoints = ml.map mkHiloPoint) := by
  refine ⟨?_, ?_, ?_, ?_⟩
  · intro h2
    simp [renderChart]
  · intro mOut
    rfl
  · intro hne mne
    have hE : hl.isEmpty = false := by
      simp [List.isEmpty_iff, hne]
    refine ⟨⟨true, renderChart hl ml u, renderTable ml u⟩, ?_, rfl, ?_, ?_, ?_⟩
    · simp [loadData_v2, hourlyState_v2, loadDataAfterHourly, renderChartJs,
        hh, hm, hE]
    · simp [renderChart, hE]
    · simp [renderChart, hE]
    · simp [renderChart]
  · intro hempty
    subst hempty
    refine ⟨⟨false, renderChart [] ml u, renderTable ml u⟩, ?_, rfl, ?_, ?_, ?_⟩
    · simp [loadData_v2, hourlyState_v2, loadDataAfterHourly, renderChartJs, hh, hm]
    all_goals
      simp [renderChart, mkHiloPoint, List.map_map, Function.comp]

/-- Witness for C4: with 2 hourly points and 1 extrema point the primary
series has 2 points, the markers 1, and hourly coverage is reported. -/
theorem C4_series_counts_witness :
    ∃ r, (loadData_v2
        (Except.ok ⟨none, some [⟨"2024-06-01 05:00", 3, none⟩,
                                ⟨"2024-06-01 06:00", 4, none⟩]⟩)
        (Except.ok ⟨none, some [⟨"2024-06-01 05:30", 5, some "H"⟩]⟩)
        "english").1 = Except.ok r ∧
      r.supportsHourly = true ∧
      r.chart.series.length = 2 ∧
      r.chart.labels.length = 2 ∧
      r.chart.hiloPoints.length = 1 :=
  (C4_series_counts
    ⟨none, some [⟨"2024-06-01 05:00", 3, none⟩, ⟨"2024-06-01 06:00", 4, none⟩]⟩
    ⟨none, some [⟨"2024-06-01 05:30", 5, some "H"⟩]⟩
    [⟨"2024-06-01 05:00", 3, none⟩, ⟨"2024-06-01 06:00", 4, none⟩]
    [⟨"2024-06-01 05:30", 5, some "H"⟩]
    "english" rfl rfl).2.2.1 (by decide) (by decide)

/-- Zero-padding a decimal numeral below 100 always yields exactly two
characters. -/
theorem padStart2_length_two :
    ∀ n : Nat, n < 100 → (padStart2 (toString n)).length = 2 := by
  decide

/-- C8: every rendered height is the numeric value printed with exactly two
fraction digits followed by the unit label, which is `m` exactly for the
`metric` units selection and `ft` for every other; 3.14159 renders as
`3.14 m` under metric and `3.14 ft` under anything else, in the table cell
and the chart tooltip alike. -/
theorem C8_height_formatting (q : ℚ) (u : String) (row : PredRow)
    (hu : u ≠ "metric") :
    unitLabel "metric" = "m" ∧
    unitLabel u = "ft" ∧
    (∀ (r2 : PredRow) (u2 : String),
      (renderTableRow r2 u2).heightStr = toFixed2 r2.v ++ " " ++ unitLabel u2) ∧
    (∀ (y : ℚ) (u2 : String),
      tooltipLabel y u2 = toFixed2 y ++ " " ++ unitLabel u2) ∧
    (∃ intPart fracPart, toFixed2 q = intPart ++ "." ++ fracPart ∧
      fracPart.length = 2) ∧
    toFixed2 (314159 / 100000 : ℚ) = "3.14" ∧
    tooltipLabel (314159 / 100000 : ℚ) "metric" = "3.14 m" ∧
    tooltipLabel (314159 / 100000 : ℚ) u = "3.14 ft" ∧
    (renderTableRow ⟨row.t, 314159 / 100000, row.type⟩ "metric").heightStr =
      "3.14 m" ∧
    (renderTableRow ⟨row.t, 314159 / 100000, row.type⟩ u).heightStr =
      "3.14 ft" := by
  have hr : round ((314159 : ℚ) / 100000 * 100) = 314 := by
    norm_num [round_eq]
  have h6 : toFixed2 (314159 / 100000 : ℚ) = "3.14" := by
    simp only [toFixed2, hr]
    decide
  have hft : unitLabel u = "ft" := by simp [unitLabel, hu]
  refine ⟨rfl, hft, fun r2 u2 => rfl, fun y u2 => rfl, ?_, h6, ?_, ?_, ?_, ?_⟩
  · refine ⟨(if round (q * 100) < 0 then "-" else "") ++
        toString ((round (q * 100)).natAbs / 100),
      padStart2 (toString ((round (q * 100)).natAbs % 100)), ?_, ?_⟩
    · simp [toFixed2, String.append_assoc]
    · exact padStart2_length_two _ (Nat.mod_lt _ (by norm_num))
  · simp only [tooltipLabel, h6]
    decide
  · simp only [tooltipLabel, h6, hft]
    decide
  · simp only [renderTableRow]
    simp only [h6]
    decide
  · simp only [renderTableRow]
    simp only [h6, hft]
    decide

/-- Witness for C8 with units `english`: 3.14159 renders as `3.14 ft` in the
tooltip and the table cell, and as `3.14 m` under metric. -/
theorem C8_height_formatting_witness :
    tooltipLabel (314159 / 100000 : ℚ) "metric" = "3.14 m" ∧
    tooltipLabel (314159 / 100000 : ℚ) "english" = "3.14 ft" ∧
    (renderTableRow ⟨"2024-06-01 05:00", 314159 / 100000, some "H"⟩
      "english").heightStr = "3.14 ft" :=
  ⟨(C8_height_formatting 0 "english" ⟨"2024-06-01 05:00", 0, some "H"⟩
      (by decide)).2.2.2.2.2.2.1,
   (C8_height_formatting 0 "english" ⟨"2024-06-01 05:00", 0, some "H"⟩
      (by decide)).2.2.2.2.2.2.2.1,
   (C8_height_formatting 0 "english" ⟨"2024-06-01 05:00", 314159 / 100000, some "H"⟩
      (by decide)).2.2.2.2.2.2.2.2.2⟩

/-- C9: an `H` marker is coloured differently from an `L` marker, the table
type cell reads `High` for tag `H` and `Low` for tag `L`, the two texts are
distinct, and no table cell or marker colour other than these is ever
produced, whatever the type tag. -/
theorem C9_high_low_tags (tstr : String) (q : ℚ) (u : String) :
    markerColor ⟨tstr, q, some "H"⟩ = "rgba(25,150,25,0.9)" ∧
    markerColor ⟨tstr, q, some "L"⟩ = "rgba(200,60,60,0.9)" ∧
    markerColor ⟨tstr, q, some "H"⟩ ≠ markerColor ⟨tstr, q, some "L"⟩ ∧
    (renderTableRow ⟨tstr, q, some "H"⟩ u).typeStr = "High" ∧
    (renderTableRow ⟨tstr, q, some "L"⟩ u).typeStr = "Low" ∧
    ("High" : String) ≠ "Low" ∧
    (∀ row : PredRow, (renderTableRow row u).typeStr = "High" ∨
      (renderTableRow row u).typeStr = "Low") ∧
    (∀ p : ChartPoint, markerColor p = "rgba(25,150,25,0.9)" ∨
      markerColor p = "rgba(200,60,60,0.9)") := by
  refine ⟨rfl, rfl, by simp [markerColor], rfl, rfl, by decide, ?_, ?_⟩
  · intro row
    rcases eq_or_ne row.type (some "H") with h | h <;>
      simp [renderTableRow, h]
  · intro p
    rcases eq_or_ne p.type (some "H") with h | h <;>
      simp [markerColor, h]

/-- C10: every `renderChart` invocation stores the new chart in the single
slot, destroys an existing chart first (destroy strictly precedes create in
the action sequence), and after every prefix of its actions at most one
chart instance is live. -/
theorem C10_single_chart (slot : Option Nat) (newId : Nat) :
    (chartSlotStep slot newId).1 = some newId ∧
    (match slot with
     | some old => (chartSlotStep slot newId).2 =
        [ChartAction.destroy old, ChartAction.create newId]
     | none => (chartSlotStep slot newId).2 = [ChartAction.create newId]) ∧
    (∀ k, (runChartActions slot.toList
      ((chartSlotStep slot newId).2.take k)).length ≤ 1) := by
  cases slot with
  | none =>
    refine ⟨rfl, rfl, ?_⟩
    intro k
    match k with
    | 0 => simp [runChartActions, chartSlotStep]
    | Nat.succ n => simp [runChartActions, chartSlotStep, applyChartAction]
  | some old =>
    refine ⟨rfl, rfl, ?_⟩
    intro k
    match k with
    | 0 => simp [runChartActions, chartSlotStep]
    | 1 => simp [runChartActions, chartSlotStep, applyChartAction]
    | Nat.succ (Nat.succ n) =>
      simp [runChartActions, chartSlotStep, applyChartAction]

/-- Witness for C9 at a concrete point: the `H` marker colour differs from
the `L` marker colour and the table cells read `High` and `Low`. -/
theorem C9_high_low_tags_witness :
    markerColor ⟨"2024-06-01T05:00", 3, some "H"⟩ ≠
      markerColor ⟨"2024-06-01T05:00", 3, some "L"⟩ ∧
    (renderTableRow ⟨"2024-06-01 05:00", 3, some "H"⟩ "english").typeStr =
      "High" ∧
    (renderTableRow ⟨"2024-06-01 05:00", 3, some "L"⟩ "english").typeStr =
      "Low" :=
  ⟨(C9_high_low_tags "2024-06-01T05:00" 3 "english").2.2.1,
   (C9_high_low_tags "2024-06-01 05:00" 3 "english").2.2.2.1,
   (C9_high_low_tags "2024-06-01 05:00" 3 "english").2.2.2.2.1⟩
